import Mathlib

/-!
Shallow embedding of `src/reference_files/prophetScript.py` (buoy wave-height
forecasting script): data acquisition (`buoySetUp`), forecasting
(`make_predictions`), presentation (`to_html`, `to_table`, the console table
built in `main`) and the orchestration in `main`.

Pandas data frames are modelled as a time index (rational timestamps measured
in days) together with an ordered list of named columns, each column a list of
optional rational cells (`none` models NaN).  Python exceptions raised by the
external buoy-data service are an explicit error type.  The external Prophet
forecasting engine is kept abstract (a function from the fitted data and a
timestamp to the three estimates), with its `make_future_dataframe` modelled
from the spec, since the library is not part of this repository.
-/

namespace ProphetScript

/-- Python exceptions relevant to `buoySetUp`: `ValueError` (the one the
`except ValueError` clause catches) versus any other exception. -/
inductive PyError where
  | valueError : PyError
  | other : String → PyError
deriving DecidableEq, Repr

/-- A pandas data frame as used by the script: a `date` index (timestamps in
days, rationals so that intra-day times are representable) and named columns
of optional cells (`none` is NaN).  The seebuoy frame returned by
`ndbc.get_data` is indexed by `date`. -/
structure Frame where
  index : List ℚ
  cols : List (String × List (Option ℚ))
deriving DecidableEq, Repr

/-- The body of the `try` block of `buoySetUp` (lines 17-20): call
`ndbc.available_data` (result unused) and then `ndbc.get_data`; an exception
in either call propagates to the `except` clause. -/
def tryFetch (avail : String → Except PyError Unit)
    (get : String → Except PyError Frame) (s : String) : Except PyError Frame := do
  let _ ← avail s
  get s

/-- The `while (not valid)` retry loop of `buoySetUp` (lines 15-22), with the
user's future replies to `input(...)` given as a list.  `none` means the loop
is still blocked waiting for further input; `some (Except.ok df)` is a
successful fetch; `some (Except.error e)` is an exception that escaped the
loop (only possible for a non-`ValueError`, which the `except` does not
catch). -/
def fetchLoop (avail : String → Except PyError Unit)
    (get : String → Except PyError Frame) :
    List String → String → Option (Except PyError Frame)
  | [], s =>
    match tryFetch avail get s with
    | .ok df => some (.ok df)
    | .error .valueError => none
    | .error (.other m) => some (.error (.other m))
  | i :: rest, s =>
    match tryFetch avail get s with
    | .ok df => some (.ok df)
    | .error .valueError => fetchLoop avail get rest i
    | .error (.other m) => some (.error (.other m))

/-- Column names present after `df_data.dropna(axis=1, how='all')` (drop the
columns whose cells are all NaN) followed by `reset_index()` (which turns the
`date` index into a `date` column), lines 24-25. -/
def columnsAfterDrop (df : Frame) : List String :=
  "date" :: (df.cols.filter (fun c => c.2.any (fun v => v.isSome))).map Prod.fst

/-- Column lookup, `df[name]`; total (the script only looks up columns whose
presence it has checked). -/
def getCol (cols : List (String × List (Option ℚ))) (name : String) :
    List (Option ℚ) :=
  match cols.find? (fun c => c.1 == name) with
  | some c => c.2
  | none => []

/-- Latest non-NaN cell strictly before position `i` (with its timestamp). -/
def lastSomeBefore (ts : List ℚ) (vs : List (Option ℚ)) (i : ℕ) :
    Option (ℚ × ℚ) :=
  (List.range i).foldl
    (fun acc j =>
      match vs.getD j none with
      | some v => some (ts.getD j 0, v)
      | none => acc)
    none

/-- Earliest non-NaN cell strictly after position `i` (with its timestamp). -/
def firstSomeAfter (ts : List ℚ) (vs : List (Option ℚ)) (i : ℕ) :
    Option (ℚ × ℚ) :=
  match ((List.range vs.length).filter (fun j => i < j)).find?
      (fun j => (vs.getD j none).isSome) with
  | some j =>
    match vs.getD j none with
    | some v => some (ts.getD j 0, v)
    | none => none
  | none => none

/-- `series.interpolate(method='time')` (lines 37-38): a NaN cell flanked by
valid cells on both sides becomes the time-weighted linear interpolant; a NaN
after the last valid cell is filled with that last value; a NaN before the
first valid cell stays NaN (pandas' default forward limit direction). -/
def interpolateTime (ts : List ℚ) (vs : List (Option ℚ)) : List (Option ℚ) :=
  (List.range vs.length).map (fun i =>
    match vs.getD i none with
    | some v => some v
    | none =>
      match lastSomeBefore ts vs i with
      | none => none
      | some (tj, vj) =>
        match firstSomeAfter ts vs i with
        | none => some vj
        | some (tk, vk) =>
          let ti := ts.getD i 0
          some (vj + (vk - vj) * ((ti - tj) / (tk - tj))))

/-- Lines 24-40 of `buoySetUp`, from the fetched frame onward: drop all-NaN
columns, reset the index, check that `wave_height` and `average_period`
survived; on failure print "Not enough data" and return the `False` signal
(modelled as `none`); on success keep `date`, the two raw series, set `date`
back as the index, and append the two time-interpolated columns.  The first
component of the result is the list of printed lines. -/
def buoySetUpBody (df : Frame) : List String × Option Frame :=
  if "wave_height" ∉ columnsAfterDrop df ∨ "average_period" ∉ columnsAfterDrop df then
    (["Not enough data"], none)
  else
    let kept := df.cols.filter (fun c => c.2.any (fun v => v.isSome))
    let wh := getCol kept "wave_height"
    let ap := getCol kept "average_period"
    ([], some
      { index := df.index
        cols := [("wave_height", wh), ("average_period", ap),
                 ("wave_height_interpolated", interpolateTime df.index wh),
                 ("average_period_interpolated", interpolateTime df.index ap)] })

/-- The whole of `buoySetUp`: the fetch retry loop followed by the
preprocessing body. -/
def buoySetUp (avail : String → Except PyError Unit)
    (get : String → Except PyError Frame) (inputs : List String) (s : String) :
    Option (Except PyError (List String × Option Frame)) :=
  (fetchLoop avail get inputs s).map (fun r => r.map buoySetUpBody)

/-- A row of the frame `buoySetUp` hands to `make_predictions` after
`reset_index()` (line 53): the timestamp plus the four value columns. -/
structure BuoyRow where
  date : ℚ
  wave_height : Option ℚ
  average_period : Option ℚ
  wave_height_interpolated : Option ℚ
  average_period_interpolated : Option ℚ
deriving DecidableEq, Repr

/-- The `targetVariable` argument of `make_predictions`: `"wave_height"` or
`"average_period"` (from `variable_list` in `main`). -/
inductive TargetVar where
  | wave_height : TargetVar
  | average_period : TargetVar
deriving DecidableEq, Repr

/-- The column `f'\x7btargetVariable\x7d_interpolated'` selected on line 65. -/
def interpCol : TargetVar → BuoyRow → Option ℚ
  | .wave_height, r => r.wave_height_interpolated
  | .average_period, r => r.average_period_interpolated

/-- A row of `modeling_df` after the rename and the `cap` assignment
(lines 65-71): `ds`, `y` and the constant `cap` column. -/
structure ModelRow where
  ds : ℚ
  y : Option ℚ
  cap : Option ℚ
deriving DecidableEq, Repr

/-- A row of the `future` frame (lines 75-76): a timestamp and the reattached
`cap`. -/
structure FutureRow where
  ds : ℚ
  cap : Option ℚ
deriving DecidableEq, Repr

/-- The three estimates Prophet's `predict` attaches to one future row. -/
structure PredictOut where
  yhat : ℚ
  yhat_lower : ℚ
  yhat_upper : ℚ
deriving DecidableEq, Repr

/-- A row of the `forecast` frame returned by `make_predictions`
(lines 77-81): timestamp, the three estimates, the `cap` carried over from
`future`, and the `date` column copied from `ds` on line 79. -/
structure ForecastRow where
  ds : ℚ
  yhat : ℚ
  yhat_lower : ℚ
  yhat_upper : ℚ
  cap : Option ℚ
  date : ℚ
deriving DecidableEq, Repr

/-- The external Prophet engine, abstract: `model.fit(modeling_df)` followed
by `model.predict` evaluated at one timestamp of the future frame.  The spec
treats the forecasting engine as a black box (table with time/target/cap
columns in, point/lower/upper estimates out), so it is a parameter here. -/
def Engine : Type := List ModelRow → ℚ → PredictOut

/-- `trainDate = today_date - timedelta(days=730)` (line 59).  `today` is
`datetime.today().date()`, a whole number of days. -/
def trainDate (today : ℤ) : ℤ := today - 730

/-- `training_df` (line 62): the rows of the buoy frame whose `date` is
strictly after `pd.Timestamp(trainDate)`. -/
def trainingRows (today : ℤ) (df : List BuoyRow) : List BuoyRow :=
  df.filter (fun r => ((trainDate today : ℤ) : ℚ) < r.date)

/-- `modeling_df` before the `cap` column (lines 65-66): select `date` and
the interpolated target column and rename them to `ds`/`y`. -/
def modelingBase (today : ℤ) (df : List BuoyRow) (tv : TargetVar) :
    List (ℚ × Option ℚ) :=
  (trainingRows today df).map (fun r => (r.date, interpCol tv r))

/-- `modeling_df['y'].max() + 1` (line 67).  Pandas `max` skips NaN cells and
is NaN on an all-NaN or empty series, modelled by `Option`. -/
def capValue (today : ℤ) (df : List BuoyRow) (tv : TargetVar) : Option ℚ :=
  (((modelingBase today df tv).map Prod.snd).filterMap id).max?.map (fun m => m + 1)

/-- `modeling_df` as fitted (lines 65-71): `ds`, `y`, and the constant `cap`
column attached to every row. -/
def modeling_df (today : ℤ) (df : List BuoyRow) (tv : TargetVar) :
    List ModelRow :=
  (modelingBase today df tv).map (fun p => ⟨p.1, p.2, capValue today df tv⟩)

/-- Modelled from the spec: Prophet's `model.make_future_dataframe(periods)`
is not part of this repository; per the spec it must "extend the time index
15 days beyond the last observed date" while keeping the historical days, so
the result is the fitted timestamps followed by `periods` consecutive daily
timestamps after their maximum (empty when there is no history, in which case
the real library would already have failed at `fit`). -/
def make_future_dataframe (history : List ℚ) (periods : ℕ) : List ℚ :=
  match history.max? with
  | none => []
  | some m => history ++ (List.range periods).map (fun i => m + ((i : ℚ) + 1))

/-- The `future` frame (lines 75-76): the extended time index with the `cap`
column reattached to every row. -/
def futureFrame (today : ℤ) (df : List BuoyRow) (tv : TargetVar) :
    List FutureRow :=
  (make_future_dataframe ((modeling_df today df tv).map ModelRow.ds) 15).map
    (fun t => ⟨t, capValue today df tv⟩)

/-- `make_predictions` (lines 43-81), parameterized by the abstract engine:
build the training window, the modeling frame with its cap, the extended
future frame, and return the engine's estimates for every row of the future
frame, with the `cap` column and the `date := ds` copy of line 79. -/
def make_predictions (engine : Engine) (today : ℤ) (df : List BuoyRow)
    (tv : TargetVar) : List ForecastRow :=
  (futureFrame today df tv).map (fun fr =>
    let p := engine (modeling_df today df tv) fr.ds
    ⟨fr.ds, p.yhat, p.yhat_lower, p.yhat_upper, fr.cap, fr.ds⟩)

/-- Read the `buoySetUp` result frame as a list of typed rows (one per index
entry), for feeding into `make_predictions`. -/
def frameToRows (f : Frame) : List BuoyRow :=
  (List.range f.index.length).map (fun i =>
    { date := f.index.getD i 0
      wave_height := (getCol f.cols "wave_height").getD i none
      average_period := (getCol f.cols "average_period").getD i none
      wave_height_interpolated :=
        (getCol f.cols "wave_height_interpolated").getD i none
      average_period_interpolated :=
        (getCol f.cols "average_period_interpolated").getD i none })

/-- The Python error raised when `make_predictions` is handed the `False`
failure signal: line 53 evaluates `False.reset_index()`. -/
def attrErrMsg : String :=
  "AttributeError: bool object has no attribute reset_index"

/-- Line 128 of `main`: `make_predictions` is called on whatever `buoySetUp`
returned, with no check for the `False` failure signal (`none`).  On the
failure signal the call raises `AttributeError`; on a frame it returns the
forecast. -/
def mainForecast (engine : Engine) (today : ℤ) (setup : Option Frame)
    (tv : TargetVar) : Except String (List ForecastRow) :=
  match setup with
  | none => .error attrErrMsg
  | some f => .ok (make_predictions engine today (frameToRows f) tv)

/-- Python's `str.ljust(n)`: pad with spaces on the right up to width `n`;
a string already at least `n` characters long is returned unchanged. -/
def ljust (n : ℕ) (s : String) : String :=
  s ++ String.mk (List.replicate (n - s.length) ' ')

/-- One line of the column format used for both the console and the
HTML rows: three fields left-justified to widths 30, 30 and 10, separated by
single spaces. -/
def pyFormat3 (a b c : String) : String :=
  ljust 30 a ++ " " ++ ljust 30 b ++ " " ++ ljust 10 c

/-- Concatenation of a list of strings (used to describe the result of the
`html += ...` accumulation). -/
def joinStrings : List String → String
  | [] => ""
  | s :: rest => s ++ joinStrings rest

/-- Round a rational to the nearest integer, ties to the even integer
(Python's rounding mode). -/
def roundHalfEvenInt (q : ℚ) : ℤ :=
  let f := ⌊q⌋
  let frac := q - (f : ℚ)
  if frac < 1 / 2 then f
  else if (1 : ℚ) / 2 < frac then f + 1
  else if f % 2 = 0 then f else f + 1

/-- Python's `round(x, 2)` as a count of hundredths. -/
def pyRound2h (q : ℚ) : ℤ :=
  roundHalfEvenInt (q * 100)

/-- Python's `str` on the float `round(x, 2)`, given the rounded value in
hundredths: minimal decimal digits (trailing zeros dropped) but always at
least one digit after the point, e.g. 123 ↦ "1.23", 150 ↦ "1.5",
100 ↦ "1.0", 5 ↦ "0.05". -/
def hundredthsToStr (m : ℤ) : String :=
  let sign := if m < 0 then "-" else ""
  let a := m.natAbs
  let ip := a / 100
  let fp := a % 100
  let frac :=
    if fp % 10 = 0 then toString (fp / 10)
    else if fp < 10 then "0" ++ toString fp
    else toString fp
  sign ++ toString ip ++ "." ++ frac

/-- Civil date (year, month, day) of a day count relative to 1970-01-01,
proleptic Gregorian calendar. -/
def civilFromDays (z0 : ℤ) : ℤ × ℤ × ℤ :=
  let z := z0 + 719468
  let era : ℤ := (if 0 ≤ z then z else z - 146096) / 146097
  let doe : ℤ := z - era * 146097
  let yoe : ℤ := (doe - doe / 1460 + doe / 36524 - doe / 146096) / 365
  let doy : ℤ := doe - (365 * yoe + yoe / 4 - yoe / 100)
  let mp : ℤ := (5 * doy + 2) / 153
  let d : ℤ := doy - (153 * mp + 2) / 5 + 1
  let m : ℤ := if mp < 10 then mp + 3 else mp - 9
  (yoe + era * 400 + (if m ≤ 2 then 1 else 0), m, d)

/-- Weekday name of a day count (1970-01-01 was a Thursday), as printed by
`strftime("%A")`. -/
def weekdayName (z : ℤ) : String :=
  match ((z + 3) % 7).toNat with
  | 0 => "Monday"
  | 1 => "Tuesday"
  | 2 => "Wednesday"
  | 3 => "Thursday"
  | 4 => "Friday"
  | 5 => "Saturday"
  | _ => "Sunday"

/-- Month name as printed by `strftime("%B")`. -/
def monthName (m : ℤ) : String :=
  match m with
  | 1 => "January"
  | 2 => "February"
  | 3 => "March"
  | 4 => "April"
  | 5 => "May"
  | 6 => "June"
  | 7 => "July"
  | 8 => "August"
  | 9 => "September"
  | 10 => "October"
  | 11 => "November"
  | _ => "December"

/-- Zero-padded two-digit day of month, as printed by `strftime("%d")`. -/
def pad2 (d : ℤ) : String :=
  if d < 10 then "0" ++ toString d else toString d

/-- Lines 98 and 138: parse `str(row['ds'])` and format it as
`strftime("%A %B %d")` — weekday name, month name, zero-padded day, for the
calendar date the timestamp falls on. -/
def formatDay (t : ℚ) : String :=
  let z := ⌊t⌋
  let c := civilFromDays z
  weekdayName z ++ " " ++ monthName c.2.1 ++ " " ++ pad2 c.2.2

/-- `str(round(row['yhat'], 2))` (lines 100 and 140). -/
def predictedStr (r : ForecastRow) : String :=
  hundredthsToStr (pyRound2h r.yhat)

/-- `str(round(row['yhat_lower'],2)) + " / " + str(round(row['yhat_upper'],2))`
(lines 99 and 139). -/
def highLowStr (r : ForecastRow) : String :=
  hundredthsToStr (pyRound2h r.yhat_lower) ++ " / " ++
    hundredthsToStr (pyRound2h r.yhat_upper)

/-- Line 132: `future = forecast[forecast['ds'] > today]` where `today` is
`pd.Timestamp.today() + timedelta(days=1)` (line 131), i.e. keep exactly the
rows whose timestamp is strictly after now + 1 day. -/
def futureOf (now : ℚ) (forecast : List ForecastRow) : List ForecastRow :=
  forecast.filter (fun r => now + 1 < r.ds)

/-- One printed console row (line 141): date, point estimate, bounds. -/
def consoleRow (r : ForecastRow) : String :=
  pyFormat3 (formatDay r.ds) (predictedStr r) (highLowStr r)

/-- The console header line (line 135). -/
def consoleHeader : String :=
  pyFormat3 "Date" "Wave Height Forecasted (m)" "yhat upper / yhat lower"

/-- All console rows printed by the loop of lines 137-141, which iterates
over the filtered `future` frame. -/
def consoleLines (now : ℚ) (forecast : List ForecastRow) : List String :=
  (futureOf now forecast).map consoleRow

/-- The initial value of the `html` accumulator (line 134): the header line
with three break tags folded into its third field. -/
def htmlHeader : String :=
  pyFormat3 "Date" "Wave Height Forecasted (m)"
    "yhat upper / yhat lower<br /><br /><br />"

/-- One HTML row appended on line 143: the formatted columns followed by a
line break tag. -/
def htmlRow (r : ForecastRow) : String :=
  pyFormat3 (formatDay r.ds) (predictedStr r) (highLowStr r) ++ "<br />"

/-- The `html += ...` accumulation over the rows reaching the loop
(lines 134-143). -/
def mainHtml (rows : List ForecastRow) : String :=
  rows.foldl (fun acc r => acc ++ htmlRow r) htmlHeader

/-- The HTML body built by `main` from the filtered `future` frame. -/
def htmlOf (now : ℚ) (forecast : List ForecastRow) : String :=
  mainHtml (futureOf now forecast)

/-- The fixed output file name of `to_html` (line 90). -/
def output_file : String := "output_html.html"

/-- `to_html` (lines 83-91): wrap the accumulated body in the fixed document
skeleton and write it to the fixed-name file, opened in write mode (full
overwrite).  Modelled as the pair (file name, complete written content). -/
def to_html (html : String) : String × String :=
  (output_file,
    "<!DOCTYPE html><html><head><title>Predictions</title></head><body><h1>Predictions</h1><p>"
      ++ html ++ "</p></body></html>")

/-- `to_table` (lines 93-104): one `[day, high_low, predicted]` triple per
row of the frame it is given. -/
def to_table (rows : List ForecastRow) : List (List String) :=
  rows.map (fun r => [formatDay r.ds, highLowStr r, predictedStr r])

/-- Line 147: `to_table` applied to the filtered `future` frame. -/
def tableOf (now : ℚ) (forecast : List ForecastRow) : List (List String) :=
  to_table (futureOf now forecast)

/-- `buoy_list` (line 108). -/
def buoy_list : List String := ["44065", "44085", "44013", "46253", "46053"]

/-- `variable_list` (line 109). -/
def variable_list : List TargetVar := [.wave_height, .average_period]

/-- The guard of the location loop (line 113): `1 <= c and c <= 5`. -/
def locValid (n : ℤ) : Bool := 1 ≤ n && n ≤ 5

/-- The guard of the target-variable loop (line 119): `c == 1 or c == 2`. -/
def varValid (n : ℤ) : Bool := n == 1 || n == 2

/-- A `while not valid: c = int(input(...))` loop (lines 112-121) over the
user's future integer replies: skip replies failing the guard, return the
first one passing it, `none` while still blocked waiting for more input. -/
def promptLoop (valid : ℤ → Bool) : List ℤ → Option ℤ
  | [] => none
  | i :: rest => if valid i then some i else promptLoop valid rest

/-- Line 124: `buoy_list[location_choice - 1]`. -/
def stationOf (n : ℤ) : String :=
  buoy_list.getD (n - 1).toNat ""

/-- Example observation frame whose required columns are both present. -/
def exFrame : Frame :=
  ⟨[0, 1], [("wave_height", [some 1, none]), ("average_period", [some 2, some 3])]⟩

/-- The frame `buoySetUpBody` produces on `exFrame`. -/
def c7OutFrame : Frame :=
  ⟨[0, 1], [("wave_height", [some 1, none]),
            ("average_period", [some 2, some 3]),
            ("wave_height_interpolated", [some 1, some 1]),
            ("average_period_interpolated", [some 2, some 3])]⟩

/-- Example observation frame with no `wave_height` column. -/
def exNoWave : Frame :=
  ⟨[0], [("average_period", [some 2])]⟩

/-- Example preprocessed buoy frame with a single row inside the training
window of run day 20000. -/
def exBuoyDf : List BuoyRow :=
  [⟨19900, some 1, some 2, some 2, some 2⟩]

/-- A concrete engine for witnesses: point estimate equal to the timestamp,
bounds one below and one above. -/
def exEngine : Engine :=
  fun _ t => ⟨t, t - 1, t + 1⟩

/-- A fetch that always succeeds trivially at the availability step. -/
def exAvail : String → Except PyError Unit :=
  fun _ => .ok ()

/-- A fetch whose data step raises a non-`ValueError` exception. -/
def exGetOther : String → Except PyError Frame :=
  fun _ => .error (.other "HTTPError")

theorem foldl_append_joinStrings {α : Type} (f : α → String) :
    ∀ (l : List α) (init : String),
      l.foldl (fun acc x => acc ++ f x) init = init ++ joinStrings (l.map f)
  | [], init => by simp [joinStrings]
  | x :: xs, init => by
    simp only [List.foldl_cons, List.map_cons, joinStrings]
    rw [foldl_append_joinStrings f xs (init ++ f x), String.append_assoc]

theorem mainHtml_eq (rows : List ForecastRow) :
    mainHtml rows = htmlHeader ++ joinStrings (rows.map htmlRow) :=
  foldl_append_joinStrings htmlRow rows htmlHeader

theorem promptLoop_eq_find (valid : ℤ → Bool) :
    ∀ inputs : List ℤ, promptLoop valid inputs = inputs.find? valid
  | [] => rfl
  | i :: rest => by
    by_cases hv : valid i
    · simp [promptLoop, List.find?_cons, hv]
    · simp [promptLoop, List.find?_cons, hv, promptLoop_eq_find valid rest]

theorem map_ds_make_predictions (engine : Engine) (today : ℤ)
    (df : List BuoyRow) (tv : TargetVar) :
    (make_predictions engine today df tv).map ForecastRow.ds
      = make_future_dataframe ((modeling_df today df tv).map ModelRow.ds) 15 := by
  unfold make_predictions futureFrame
  rw [List.map_map, List.map_map]
  exact List.map_id'' (fun x => rfl) _

theorem exEngine_bounds (m : List ModelRow) (t : ℚ) :
    (exEngine m t).yhat_lower ≤ (exEngine m t).yhat
      ∧ (exEngine m t).yhat ≤ (exEngine m t).yhat_upper := by
  constructor <;> simp [exEngine]

theorem exModelRow_mem :
    ModelRow.mk 19900 (some 2) (some (2 + 1))
      ∈ modeling_df 20000 exBuoyDf TargetVar.wave_height := by
  norm_num [modeling_df, modelingBase, trainingRows, trainDate, exBuoyDf,
    capValue, interpCol, List.max?, List.filterMap_cons, List.filterMap_nil]

theorem exModeling_max :
    ((modeling_df 20000 exBuoyDf TargetVar.wave_height).map ModelRow.ds).max?
      = some 19900 := by
  norm_num [modeling_df, modelingBase, trainingRows, trainDate, exBuoyDf,
    capValue, interpCol, List.max?]

theorem exForecastRow_mem :
    ForecastRow.mk 19900 19900 (19900 - 1) (19900 + 1) (some (2 + 1)) 19900
      ∈ make_predictions exEngine 20000 exBuoyDf TargetVar.wave_height := by
  norm_num [make_predictions, futureFrame, make_future_dataframe, modeling_df,
    modelingBase, trainingRows, trainDate, exBuoyDf, capValue, interpCol,
    exEngine, List.max?, List.filterMap_cons, List.filterMap_nil]

/-- C1: the claim says `main` checks for the "no usable data" signal and
never calls `make_predictions` on it; in the code `main` passes `buoySetUp`'s
result straight to `make_predictions` (line 128) with no check, so on the
failure signal the run raises `AttributeError` instead of aborting
gracefully. -/
theorem c1_main_forecasts_on_failure_signal :
    ∀ (engine : Engine) (today : ℤ) (tv : TargetVar),
      mainForecast engine today none tv = Except.error attrErrMsg := by
  intro engine today tv
  rfl

/-- C2: whenever `wave_height` or `average_period` is absent after dropping
the all-empty columns, `buoySetUp` prints "Not enough data" and returns the
failure signal instead of a frame. -/
theorem c2_missing_columns_reports_failure (df : Frame)
    (h : "wave_height" ∉ columnsAfterDrop df ∨
      "average_period" ∉ columnsAfterDrop df) :
    buoySetUpBody df = (["Not enough data"], none) := by
  unfold buoySetUpBody
  rw [if_pos h]

theorem c2_witness :
    ("wave_height" ∉ columnsAfterDrop exNoWave ∨
        "average_period" ∉ columnsAfterDrop exNoWave)
      ∧ buoySetUpBody exNoWave = (["Not enough data"], none) :=
  ⟨by decide, c2_missing_columns_reports_failure exNoWave (by decide)⟩

/-- C3: `cap` equals the maximum of the interpolated target over the rows
whose date is strictly after the run date minus 730 days, plus 1, and every
row of the fitting frame and of the extended future frame carries exactly
this `cap` value. -/
theorem c3_cap_constant (today : ℤ) (df : List BuoyRow) (tv : TargetVar) :
    capValue today df tv
      = ((df.filter (fun r => ((today - 730 : ℤ) : ℚ) < r.date)).filterMap
          (interpCol tv)).max?.map (fun m => m + 1)
    ∧ (∀ r ∈ modeling_df today df tv, r.cap = capValue today df tv)
    ∧ (∀ fr ∈ futureFrame today df tv, fr.cap = capValue today df tv) := by
  refine ⟨?_, ?_, ?_⟩
  · simp only [capValue, modelingBase, trainingRows, trainDate, List.map_map,
      List.filterMap_map, Function.comp]
    rfl
  · intro r hr
    simp only [modeling_df, List.mem_map] at hr
    obtain ⟨p, _, rfl⟩ := hr
    rfl
  · intro fr hfr
    simp only [futureFrame, List.mem_map] at hfr
    obtain ⟨t, _, rfl⟩ := hfr
    rfl

theorem c3_witness :
    (ModelRow.mk 19900 (some 2) (some (2 + 1))).cap
      = capValue 20000 exBuoyDf TargetVar.wave_height :=
  (c3_cap_constant 20000 exBuoyDf TargetVar.wave_height).2.1 _ exModelRow_mem

/-- C4: the rows consumed by all three renderers are exactly the forecast
rows whose timestamp is strictly after now + 1 day; every other forecast row
is excluded from the console table, the HTML body and the row-tuple table. -/
theorem c4_presentation_cutoff (now : ℚ) (forecast : List ForecastRow) :
    (∀ r, r ∈ futureOf now forecast ↔ r ∈ forecast ∧ now + 1 < r.ds)
    ∧ consoleLines now forecast = (futureOf now forecast).map consoleRow
    ∧ htmlOf now forecast
        = htmlHeader ++ joinStrings ((futureOf now forecast).map htmlRow)
    ∧ tableOf now forecast
        = (futureOf now forecast).map
            (fun r => [formatDay r.ds, highLowStr r, predictedStr r]) := by
  refine ⟨?_, rfl, mainHtml_eq _, rfl⟩
  intro r
  simp [futureOf, List.mem_filter]

/-- C5: the time index of the forecast table is the training-window index
extended by exactly 15 consecutive days past its last date, and the engine's
point, lower and upper estimates are produced for every day of the extended
index, the back-fit historical days included. -/
theorem c5_horizon (engine : Engine) (today : ℤ) (df : List BuoyRow)
    (tv : TargetVar) (M : ℚ)
    (h : ((modeling_df today df tv).map ModelRow.ds).max? = some M) :
    (make_predictions engine today df tv).map ForecastRow.ds
      = (modeling_df today df tv).map ModelRow.ds
          ++ (List.range 15).map (fun i => M + ((i : ℚ) + 1))
    ∧ ((List.range 15).map (fun i => M + ((i : ℚ) + 1))).getLast?
        = some (M + 15)
    ∧ ∀ fr ∈ futureFrame today df tv,
        ∃ r ∈ make_predictions engine today df tv,
          r.ds = fr.ds
          ∧ r.yhat = (engine (modeling_df today df tv) fr.ds).yhat
          ∧ r.yhat_lower = (engine (modeling_df today df tv) fr.ds).yhat_lower
          ∧ r.yhat_upper = (engine (modeling_df today df tv) fr.ds).yhat_upper := by
  refine ⟨?_, ?_, ?_⟩
  · rw [map_ds_make_predictions]
    simp [make_future_dataframe, h]
  · have hr : List.range 15 = [0, 1, 2, 3, 4, 5, 6, 7, 8, 9, 10, 11, 12, 13, 14] := by
      decide
    rw [hr]
    simp only [List.map_cons, List.map_nil, List.getLast?]
    norm_num
  · intro fr hfr
    exact ⟨_, List.mem_map_of_mem _ hfr, rfl, rfl, rfl, rfl⟩

theorem c5_witness :
    (make_predictions exEngine 20000 exBuoyDf TargetVar.wave_height).map
        ForecastRow.ds
      = (modeling_df 20000 exBuoyDf TargetVar.wave_height).map ModelRow.ds
          ++ (List.range 15).map (fun i => (19900 : ℚ) + ((i : ℚ) + 1)) :=
  (c5_horizon exEngine 20000 exBuoyDf TargetVar.wave_height 19900 exModeling_max).1

/-- C6: both menu loops skip every out-of-range choice and return the first
valid one, never failing; a location choice of 6 followed by 3 rejects the 6,
accepts the 3, and selects station "44013". -/
theorem c6_menu_loops :
    (∀ inputs : List ℤ, promptLoop locValid inputs = inputs.find? locValid
        ∧ promptLoop varValid inputs = inputs.find? varValid)
    ∧ (∀ (inputs : List ℤ) (n : ℤ),
        promptLoop locValid inputs = some n → 1 ≤ n ∧ n ≤ 5)
    ∧ (∀ (inputs : List ℤ) (n : ℤ),
        promptLoop varValid inputs = some n → n = 1 ∨ n = 2)
    ∧ promptLoop locValid [6, 3] = some 3
    ∧ stationOf 3 = "44013" := by
  refine ⟨fun inputs => ⟨promptLoop_eq_find _ _, promptLoop_eq_find _ _⟩,
    ?_, ?_, by decide, by decide⟩
  · intro inputs n h
    rw [promptLoop_eq_find] at h
    have := List.find?_some h
    simpa [locValid] using this
  · intro inputs n h
    rw [promptLoop_eq_find] at h
    have := List.find?_some h
    simpa [varValid] using this

theorem c6_witness : 1 ≤ (3 : ℤ) ∧ (3 : ℤ) ≤ 5 :=
  c6_menu_loops.2.1 [6, 3] 3 (by decide)

/-- C7 counterexample: on a frame containing both required series, the frame
returned by `buoySetUp` retains four columns, not three as claimed — the two
raw series and the two interpolated ones. -/
theorem c7_counterexample :
    (buoySetUpBody exFrame).2 = some c7OutFrame
      ∧ c7OutFrame.cols.length = 4
      ∧ c7OutFrame.cols.length ≠ 3 := by
  decide

/-- C7 (amended): on success `buoySetUp` returns a frame indexed by
timestamp with exactly four columns retained, the raw wave height, the raw
average period, and their two time-interpolated counterparts. -/
theorem c7_four_columns (df f : Frame) (h : (buoySetUpBody df).2 = some f) :
    f.cols.map Prod.fst
      = ["wave_height", "average_period",
         "wave_height_interpolated", "average_period_interpolated"]
    ∧ f.cols.length = 4
    ∧ f.index = df.index := by
  unfold buoySetUpBody at h
  split at h
  · simp at h
  · simp only [Option.some.injEq] at h
    subst h
    exact ⟨rfl, rfl, rfl⟩

theorem c7_witness :
    c7OutFrame.cols.map Prod.fst
      = ["wave_height", "average_period",
         "wave_height_interpolated", "average_period_interpolated"]
    ∧ c7OutFrame.cols.length = 4
    ∧ c7OutFrame.index = exFrame.index :=
  c7_four_columns exFrame c7OutFrame (by decide)

/-- C8: every row of the forecast table returned by `make_predictions`
satisfies lower bound ≤ point estimate ≤ upper bound, the estimates being
taken unchanged from the engine's per-row output. -/
theorem c8_row_bounds (engine : Engine) (today : ℤ) (df : List BuoyRow)
    (tv : TargetVar)
    (h : ∀ (m : List ModelRow) (t : ℚ),
      (engine m t).yhat_lower ≤ (engine m t).yhat
        ∧ (engine m t).yhat ≤ (engine m t).yhat_upper) :
    ∀ r ∈ make_predictions engine today df tv,
      r.yhat_lower ≤ r.yhat ∧ r.yhat ≤ r.yhat_upper := by
  intro r hr
  simp only [make_predictions, List.mem_map] at hr
  obtain ⟨fr, _, rfl⟩ := hr
  exact h _ _

theorem c8_witness :
    (ForecastRow.mk 19900 19900 (19900 - 1) (19900 + 1) (some (2 + 1)) 19900).yhat_lower
        ≤ (ForecastRow.mk 19900 19900 (19900 - 1) (19900 + 1) (some (2 + 1)) 19900).yhat
      ∧ (ForecastRow.mk 19900 19900 (19900 - 1) (19900 + 1) (some (2 + 1)) 19900).yhat
        ≤ (ForecastRow.mk 19900 19900 (19900 - 1) (19900 + 1) (some (2 + 1)) 19900).yhat_upper :=
  c8_row_bounds exEngine 20000 exBuoyDf TargetVar.wave_height exEngine_bounds
    _ exForecastRow_mem

/-- C9: each run writes to the fixed file name a full document consisting of
the doctype, a head whose title is "Predictions", an h1 "Predictions"
heading, then a single paragraph holding the header line and every forecast
row — each row the three 30/30/10 left-justified columns (formatted date,
rounded point estimate, rounded "lower / upper" bounds) terminated by a
break tag — followed by the closing tags. -/
theorem c9_html_document (rows : List ForecastRow) :
    to_html (mainHtml rows)
      = (output_file,
        "<!DOCTYPE html><html><head><title>Predictions</title></head><body><h1>Predictions</h1><p>"
          ++ (htmlHeader ++ joinStrings (rows.map htmlRow))
          ++ "</p></body></html>")
    ∧ output_file = "output_html.html"
    ∧ ∀ r : ForecastRow,
        htmlRow r
          = ljust 30 (formatDay r.ds) ++ " " ++ ljust 30 (predictedStr r)
              ++ " " ++ ljust 10 (highLowStr r) ++ "<br />" := by
  refine ⟨?_, rfl, fun r => rfl⟩
  unfold to_html
  rw [mainHtml_eq]

/-- C10: in the fetch retry loop only a `ValueError` triggers the re-prompt;
a successful fetch leaves the loop with the data, and any other exception
propagates out at once, terminating without a table. -/
theorem c10_only_valueerror_retries (avail : String → Except PyError Unit)
    (get : String → Except PyError Frame) (s i : String)
    (rest inputs : List String) (m : String) (df : Frame) :
    (tryFetch avail get s = Except.error (PyError.other m) →
        fetchLoop avail get inputs s = some (Except.error (PyError.other m)))
    ∧ (tryFetch avail get s = Except.error PyError.valueError →
        fetchLoop avail get (i :: rest) s = fetchLoop avail get rest i)
    ∧ (tryFetch avail get s = Except.ok df →
        fetchLoop avail get inputs s = some (Except.ok df)) := by
  refine ⟨fun h => ?_, fun h => ?_, fun h => ?_⟩
  · cases inputs <;> simp [fetchLoop, h]
  · simp [fetchLoop, h]
  · cases inputs <;> simp [fetchLoop, h]

theorem c10_witness :
    fetchLoop exAvail exGetOther ["44013"] "44065"
      = some (Except.error (PyError.other "HTTPError")) :=
  (c10_only_valueerror_retries exAvail exGetOther "44065" "" [] ["44013"]
    "HTTPError" ⟨[], []⟩).1 rfl

end ProphetScript
